import Mathlib

/-!
Shallow embedding of the Helty VMC protocol handler (src/protocol.py and
src/const.py).  The transport layer is modelled by passing the (optional)
response string explicitly: `_send_command` returns `str | None` in the
source, embedded here as `Option String`.  Python floats are modelled as
rationals; every numeric value reachable from the claims is an exact
decimal, so rational semantics agrees with IEEE semantics on them.

String primitives (`strip`, `startswith`, `split`, slicing) are modelled
over the character list of the string so that all definitions evaluate by
kernel reduction.
-/

namespace HeltyVMC

/-- Python character-list semantics of `str.strip()` on one side:
drop leading whitespace. -/
def dropWhitespace (cs : List Char) : List Char :=
  cs.dropWhile Char.isWhitespace

/-- Model of Python `str.strip()`: whitespace removed from both ends. -/
def strStrip (s : String) : String :=
  ⟨(dropWhitespace (dropWhitespace s.data).reverse).reverse⟩

/-- Character-list core of `str.startswith`. -/
def listStartsWith : List Char → List Char → Bool
  | _, [] => true
  | [], _ :: _ => false
  | a :: as, b :: bs => a == b && listStartsWith as bs

/-- Model of Python `str.startswith(pat)`. -/
def strStartsWith (s pat : String) : Bool :=
  listStartsWith s.data pat.data

/-- Character-list core of `str.split(sep)` for a one-character separator:
`acc` holds the current field reversed. -/
def splitCharsAux (sep : Char) : List Char → List Char → List (List Char)
  | [], acc => [acc.reverse]
  | c :: cs, acc =>
      if c == sep then acc.reverse :: splitCharsAux sep cs []
      else splitCharsAux sep cs (c :: acc)

/-- Model of Python `str.split(sep)` for a one-character separator
(`"".split(",") == [""]`, trailing separators yield empty fields). -/
def strSplitOn (s : String) (sep : Char) : List String :=
  (splitCharsAux sep s.data []).map (fun cs => ⟨cs⟩)

/-- Model of Python slicing `s[n:]`. -/
def strDrop (s : String) (n : Nat) : String :=
  ⟨s.data.drop n⟩

/-- Model of Python `len(s)`. -/
def strLength (s : String) : Nat :=
  s.data.length

/-- Model of Python truthiness of a string: empty is falsy. -/
def strIsEmpty (s : String) : Bool :=
  s.data.isEmpty

/-- Model of Python `c in s` for a one-character needle. -/
def strContainsChar (s : String) (c : Char) : Bool :=
  s.data.contains c

/-- Accumulate a run of decimal digit characters into a natural number;
fails on the first non-digit.  Helper for the Python numeric-parse models. -/
def decDigitsAux : List Char → Nat → Option Nat
  | [], acc => some acc
  | c :: cs, acc =>
      if c.isDigit then decDigitsAux cs (acc * 10 + (c.toNat - 48)) else none

/-- A nonempty, all-digit character list as a natural number. -/
def decDigits (cs : List Char) : Option Nat :=
  if cs.isEmpty then none else decDigitsAux cs 0

/-- Model of Python `int(str)`: surrounding whitespace is stripped, an
optional single leading sign is allowed, and the remainder must be a
nonempty digit string.  (Digit-group underscores and non-ASCII digits,
which Python also accepts, are outside the device alphabet and omitted.) -/
def pyInt (s : String) : Option Int :=
  match (strStrip s).data with
  | '-' :: rest => (decDigits rest).map (fun n => -(n : Int))
  | '+' :: rest => (decDigits rest).map (fun n => (n : Int))
  | rest => (decDigits rest).map (fun n => (n : Int))

/-- Value of a (possibly empty) all-digit list, used for the two halves of a
decimal literal. -/
def decDigitsVal (cs : List Char) : Nat :=
  cs.foldl (fun acc c => acc * 10 + (c.toNat - 48)) 0

/-- Unsigned decimal literal body: `digits`, `digits.digits`, `digits.` or
`.digits`, valued as a rational. -/
def pyFloatBody (cs : List Char) : Option ℚ :=
  match splitCharsAux '.' cs [] with
  | [ip] => (decDigits ip).map (fun n => (n : ℚ))
  | [ip, fp] =>
      if ip.isEmpty && fp.isEmpty then none
      else if ip.all Char.isDigit && fp.all Char.isDigit then
        some ((decDigitsVal ip : ℚ) + (decDigitsVal fp : ℚ) / 10 ^ fp.length)
      else none
  | _ => none

/-- Model of Python `float(str)` restricted to finite decimal literals:
whitespace stripped, optional sign, then an integer or decimal-point body.
(Exponent, `inf` and `nan` forms never occur in the device's fixed-width
digit fields and are omitted.) -/
def pyFloat (s : String) : Option ℚ :=
  match (strStrip s).data with
  | '-' :: rest => (pyFloatBody rest).map (fun q => -q)
  | '+' :: rest => pyFloatBody rest
  | rest => pyFloatBody rest

/-- `SPEED_MODES.get(v, "unknown")` from src/const.py. -/
def speedModesGet (v : Int) : String :=
  if v = 0 then "off"
  else if v = 1 then "speed_1"
  else if v = 2 then "speed_2"
  else if v = 3 then "speed_3"
  else if v = 4 then "speed_4"
  else if v = 5 then "boost"
  else if v = 6 then "night"
  else if v = 7 then "free_cooling"
  else "unknown"

/-- `VMCStatus` dataclass with its field defaults. -/
structure VMCStatus where
  speed : Int := 0
  speed_mode : String := "off"
  is_online : Bool := false
  led_on : Option Bool := none
  led_filter_warning : Bool := false
  sensors_on : Option Bool := none
  deriving Repr, DecidableEq

/-- `VMCSensors` dataclass with its field defaults. -/
structure VMCSensors where
  temperature_external : Option ℚ := none
  temperature_internal : Option ℚ := none
  humidity_internal : Option ℚ := none
  co2 : Option Int := none
  voc : Option Int := none
  filter_hours : Option Int := none
  deriving Repr, DecidableEq

/-- `HeltyVMCProtocol._parse_temperature`.  The caught `ValueError` of
`int()` is the `none` of `pyInt`, propagated by `Option.map`. -/
def parse_temperature (value : String) : Option ℚ :=
  if strIsEmpty (strStrip value) then none
  else
    let v := strStrip value
    if strStartsWith v "1" && strLength v == 5 then
      (pyInt (strDrop v 1)).map (fun n => -((n : ℚ) / 10))
    else
      (pyInt v).map (fun n => (n : ℚ) / 10)

/-- `HeltyVMCProtocol._parse_humidity`. -/
def parse_humidity (value : String) : Option ℚ :=
  match pyFloat value with
  | none => none
  | some x =>
      let val := x / 10
      if val > 0 then some (min val 100) else none

/-- `HeltyVMCProtocol._parse_int`. -/
def parse_int (value : String) : Option Int :=
  match pyInt value with
  | none => none
  | some val => if val > 0 then some val else none

/-- Field extraction of `get_status` from the split parts.  Each
`len(parts) > i` guard followed by `parts[i]` in the source is the match on
`parts[i]?`; the `except ValueError` around `int(parts[1])` is the `none`
branch of `pyInt`, which leaves all three speed-related fields at their
defaults. -/
def statusOf (parts : List String) : VMCStatus :=
  let s1 : VMCStatus :=
    match parts[1]? with
    | some p =>
        match pyInt p with
        | some v => { speed := v, speed_mode := speedModesGet v, is_online := true }
        | none => {}
    | none => {}
  let s2 : VMCStatus :=
    match parts[4]? with
    | some c => { s1 with sensors_on := some (c == "00000" || c == "00001") }
    | none => s1
  match parts[14]? with
  | some c => { s2 with led_on := some (c != "00000"), led_filter_warning := c == "00032" }
  | none => s2

/-- `HeltyVMCProtocol.get_status`.  Python truthiness of the response and
the prefix test give the branch condition; the else branch is
`status.is_online = response is not None`, which in the `some` case is
`true`. -/
def get_status (response : Option String) : VMCStatus :=
  match response with
  | none => {}
  | some r =>
      if !(strIsEmpty r) && strStartsWith r "VMGO" then
        statusOf (strSplitOn r ',')
      else { is_online := true }

/-- Field extraction of `get_sensors` from the split parts; the source
assigns `temperature_internal` from index 1 and `temperature_external`
from index 2. -/
def sensorFieldsOf (parts : List String) : VMCSensors :=
  { temperature_internal :=
      match parts[1]? with | some v => parse_temperature v | none => none
    temperature_external :=
      match parts[2]? with | some v => parse_temperature v | none => none
    humidity_internal :=
      match parts[3]? with | some v => parse_humidity v | none => none
    co2 :=
      match parts[4]? with | some v => parse_int v | none => none
    voc :=
      match parts[11]? with | some v => parse_int v | none => none }

/-- `HeltyVMCProtocol.get_sensors`: an empty (falsy) response yields the
default record; a response with the `"VMIO"` marker or any comma is split
and decoded; anything else yields the default record. -/
def get_sensors (response : Option String) : VMCSensors :=
  match response with
  | none => {}
  | some r =>
      if strIsEmpty r then {}
      else if strStartsWith r "VMIO" || strContainsChar r ',' then
        sensorFieldsOf (strSplitOn r ',')
      else {}

/-! ### Characterization lemmas -/

theorem strIsEmpty_iff (s : String) : strIsEmpty s = true ↔ s = "" := by
  cases s with
  | mk data =>
      cases data with
      | nil => exact ⟨fun _ => rfl, fun _ => rfl⟩
      | cons c cs =>
          constructor
          · intro h; exact Bool.noConfusion h
          · intro h
            have hd := congrArg String.data h
            exact absurd (hd.trans rfl) (List.cons_ne_nil c cs)

theorem strStartsWith_ne_empty {s pat : String} (hpat : pat ≠ "")
    (h : strStartsWith s pat = true) : strIsEmpty s = false := by
  cases s with
  | mk data =>
      cases data with
      | nil =>
          cases pat with
          | mk pdata =>
              cases pdata with
              | nil => exact absurd rfl hpat
              | cons p ps => simp [strStartsWith, listStartsWith] at h
      | cons c cs => simp [strIsEmpty, List.isEmpty]

/-- Explicit per-field form of `statusOf`. -/
theorem statusOf_eq (parts : List String) :
    statusOf parts =
      { speed := ((parts[1]?).bind pyInt).getD 0
        speed_mode :=
          match (parts[1]?).bind pyInt with
          | some v => speedModesGet v
          | none => "off"
        is_online := ((parts[1]?).bind pyInt).isSome
        sensors_on := (parts[4]?).map (fun c => c == "00000" || c == "00001")
        led_on := (parts[14]?).map (fun c => c != "00000")
        led_filter_warning :=
          ((parts[14]?).map (fun c => c == "00032")).getD false } := by
  unfold statusOf
  rcases h1 : parts[1]? with _ | p <;>
    rcases h4 : parts[4]? with _ | c4 <;>
      rcases h14 : parts[14]? with _ | c14 <;>
        simp [Option.bind] <;>
          rcases pyInt p with _ | v <;> simp

/-- `get_status` on a `"VMGO"`-prefixed response is `statusOf` of the split. -/
theorem get_status_vmgo {r : String} (h : strStartsWith r "VMGO" = true) :
    get_status (some r) = statusOf (strSplitOn r ',') := by
  have hne : strIsEmpty r = false := strStartsWith_ne_empty (by decide) h
  simp [get_status, h, hne]

/-! ### Spec-side rule definitions

These follow the spec's words rather than the source, for the refinement
claims comparing the two. -/

/-- Temperature rule as the spec states it: trim; empty is absent; a value
of length exactly 5 beginning with digit 1 is the negation of its remaining
digits over ten; any other value is the whole value as an integer over ten;
non-numeric content is absent. -/
def tempRuleSpec (s : String) : Option ℚ :=
  let t := strStrip s
  if t = "" then none
  else if strLength t == 5 && strStartsWith t "1" then
    (pyInt (strDrop t 1)).map (fun n => -((n : ℚ) / 10))
  else
    (pyInt t).map (fun n => (n : ℚ) / 10)

/-- Humidity rule as the spec states it: numeric value over ten; a result
at most 0 is absent; a result above 100 is clamped to 100. -/
def humidityRuleSpec (s : String) : Option ℚ :=
  match pyFloat s with
  | none => none
  | some x =>
      let r := x / 10
      if r ≤ 0 then none
      else if r > 100 then some 100 else some r

/-- Positive-int rule as the spec states it: parse as integer; at most 0 is
absent. -/
def intRuleSpec (s : String) : Option Int :=
  match pyInt s with
  | none => none
  | some v => if v ≤ 0 then none else some v

end HeltyVMC

namespace HeltyVMC

/-- C1: the temperature parser trims, maps the empty string to absent,
negates a length-5 value beginning with digit 1 on its remaining digits
over ten, takes the positive branch for every other value, and maps
non-numeric content to absent; concretely 00215 is 21.5, 10200 is -20.0,
1020 is 102.0 and the empty string is absent. -/
theorem C1_temperature_rule :
    (∀ s : String, parse_temperature s = tempRuleSpec s) ∧
    parse_temperature "00215" = some (43 / 2) ∧
    parse_temperature "10200" = some (-20) ∧
    parse_temperature "1020" = some 102 ∧
    parse_temperature "" = none := by
  refine ⟨fun s => ?_, ?_, ?_, ?_, by decide⟩
  · by_cases h : strIsEmpty (strStrip s) = true
    · have h' : strStrip s = "" := (strIsEmpty_iff _).mp h
      rw [parse_temperature, tempRuleSpec, h']
      rfl
    · unfold parse_temperature tempRuleSpec
      have hb : strIsEmpty (strStrip s) = false := by
        cases hx : strIsEmpty (strStrip s) with
        | false => rfl
        | true => exact absurd hx h
      have h' : ¬ strStrip s = "" := fun e => h ((strIsEmpty_iff _).mpr e)
      simp only [hb, Bool.false_eq_true, if_false, if_neg h']
      rw [Bool.and_comm]
  · have h1 : strIsEmpty (strStrip "00215") = false := by decide
    have h2 : pyInt (strStrip "00215") = some 215 := by decide
    have h3 : (strStartsWith (strStrip "00215") "1" && strLength (strStrip "00215") == 5) = false := by
      decide
    rw [parse_temperature]
    simp only [h1, h2, h3, Bool.false_eq_true, if_false, Option.map_some]
    norm_num
  · have h1 : strIsEmpty (strStrip "10200") = false := by decide
    have h2 : pyInt (strDrop (strStrip "10200") 1) = some 200 := by decide
    have h3 : (strStartsWith (strStrip "10200") "1" && strLength (strStrip "10200") == 5) = true := by
      decide
    rw [parse_temperature]
    simp only [h1, h2, h3, Bool.false_eq_true, if_false, if_true, Option.map_some]
    norm_num
  · have h1 : strIsEmpty (strStrip "1020") = false := by decide
    have h2 : pyInt (strStrip "1020") = some 1020 := by decide
    have h3 : (strStartsWith (strStrip "1020") "1" && strLength (strStrip "1020") == 5) = false := by
      decide
    rw [parse_temperature]
    simp only [h1, h2, h3, Bool.false_eq_true, if_false, Option.map_some]
    norm_num

/-- C5: the humidity parser divides by ten, treats a result at most 0 as
absent, clamps results above 100 to 100, and treats non-numeric input as
absent; concretely 0500 is 50.0, 0000 is absent and 1500 is 100.0. -/
theorem C5_humidity_rule :
    (∀ s : String, parse_humidity s = humidityRuleSpec s) ∧
    parse_humidity "0500" = some 50 ∧
    parse_humidity "0000" = none ∧
    parse_humidity "1500" = some 100 := by
  refine ⟨fun s => ?_, ?_, ?_, ?_⟩
  · unfold parse_humidity humidityRuleSpec
    cases pyFloat s with
    | none => rfl
    | some x =>
        simp only
        rcases le_or_lt (x / 10) 0 with h | h
        · rw [if_neg (not_lt.mpr h), if_pos h]
        · rw [if_pos h, if_neg (not_le.mpr h)]
          rcases le_or_lt (x / 10) 100 with h2 | h2
          · rw [if_neg (not_lt.mpr h2), min_eq_left h2]
          · rw [if_pos h2, min_eq_right (le_of_lt h2)]
  · have hf : pyFloat "0500" = some 500 := by decide
    rw [parse_humidity, hf]
    norm_num [min_def]
  · have hf : pyFloat "0000" = some 0 := by decide
    rw [parse_humidity, hf]
    norm_num
  · have hf : pyFloat "1500" = some 1500 := by decide
    rw [parse_humidity, hf]
    norm_num [min_def]

/-- C6: the positive-int parser returns the parsed integer when it is
strictly positive and absent otherwise; concretely 0450 is 450, 0000 is
absent and -5 is absent. -/
theorem C6_positive_int_rule :
    (∀ s : String, parse_int s = intRuleSpec s) ∧
    parse_int "0450" = some 450 ∧
    parse_int "0000" = none ∧
    parse_int "-5" = none := by
  refine ⟨fun s => ?_, by decide, by decide, by decide⟩
  unfold parse_int intRuleSpec
  cases pyInt s with
  | none => rfl
  | some v =>
      simp only
      rcases le_or_lt v 0 with h | h
      · rw [if_neg (not_lt.mpr h), if_pos h]
      · rw [if_pos h, if_neg (not_le.mpr h)]

/-- C2 counterexample: a present response that does not begin with
`"VMGO"` still yields `is_online = true`, refuting the claim that
`is_online` is never true without a parsed status frame. -/
theorem C2_counterexample :
    (get_status (some "XYZ")).is_online = true ∧
    strStartsWith "XYZ" "VMGO" = false := by
  decide

/-- C2 amended: `is_online` is true exactly when a response is present and
either does not begin with `"VMGO"` (the else branch sets it from mere
presence), or begins with `"VMGO"` and its speed field parses as an
integer. -/
theorem C2_amended_online_iff :
    ∀ response : Option String,
      (get_status response).is_online = true ↔
        ∃ r, response = some r ∧
          (strStartsWith r "VMGO" = false ∨
            ∃ p, (strSplitOn r ',')[1]? = some p ∧ (pyInt p).isSome = true) := by
  intro response
  cases response with
  | none => simp [get_status]
  | some r =>
      cases hs : strStartsWith r "VMGO" with
      | false =>
          simp only [get_status, hs, Bool.and_false, Bool.false_eq_true, if_false]
          simp [hs]
      | true =>
          rw [get_status_vmgo hs, statusOf_eq]
          cases hp : (strSplitOn r ',')[1]? with
          | none => simp [hp, hs, Option.bind]
          | some p => simp [hp, hs, Option.bind, Option.isSome]

/-- C3: a `"VMGO"` response with speed field `"00003"`, sensors field
`"00001"` and LED field `"00032"` decodes to speed 3, mode speed_3, online,
sensors on, LED on with filter warning; in general the sensors field yields
membership of the two on-codes and the LED field yields the not-off and
filter-warning comparisons. -/
theorem C3_status_decode :
    (∀ r : String, strStartsWith r "VMGO" = true →
        (strSplitOn r ',')[1]? = some "00003" →
        (strSplitOn r ',')[4]? = some "00001" →
        (strSplitOn r ',')[14]? = some "00032" →
        get_status (some r) =
          { speed := 3, speed_mode := "speed_3", is_online := true,
            led_on := some true, led_filter_warning := true,
            sensors_on := some true }) ∧
    (∀ r v, strStartsWith r "VMGO" = true →
        (strSplitOn r ',')[4]? = some v →
        (get_status (some r)).sensors_on = some (v == "00000" || v == "00001")) ∧
    (∀ r v, strStartsWith r "VMGO" = true →
        (strSplitOn r ',')[14]? = some v →
        (get_status (some r)).led_on = some (v != "00000") ∧
        (get_status (some r)).led_filter_warning = (v == "00032")) := by
  refine ⟨fun r hs h1 h4 h14 => ?_, fun r v hs h4 => ?_, fun r v hs h14 => ?_⟩
  · rw [get_status_vmgo hs, statusOf_eq, h1, h4, h14]
    decide
  · rw [get_status_vmgo hs, statusOf_eq, h4]
    rfl
  · rw [get_status_vmgo hs, statusOf_eq, h14]
    exact ⟨rfl, rfl⟩

/-- C3 witness at a concrete fifteen-field frame. -/
theorem C3_status_decode_witness :
    get_status (some "VMGO,00003,00000,00000,00001,00000,00000,00000,00000,00000,00000,00000,00000,00000,00032") =
      { speed := 3, speed_mode := "speed_3", is_online := true,
        led_on := some true, led_filter_warning := true,
        sensors_on := some true } :=
  C3_status_decode.1 _ (by decide) (by decide) (by decide) (by decide)

/-- Sensor decoding as the spec states it: a response with the `"VMIO"`
marker or a comma is split and each listed index feeds its rule, an index
beyond the bound staying absent; any other response leaves every field
absent. -/
def sensorsRuleSpec (r : String) : VMCSensors :=
  if strStartsWith r "VMIO" || strContainsChar r ',' then
    let parts := strSplitOn r ','
    { temperature_internal := (parts[1]?).bind parse_temperature
      temperature_external := (parts[2]?).bind parse_temperature
      humidity_internal := (parts[3]?).bind parse_humidity
      co2 := (parts[4]?).bind parse_int
      voc := (parts[11]?).bind parse_int }
  else {}

/-- Explicit per-field form of `sensorFieldsOf`. -/
theorem sensorFieldsOf_eq (parts : List String) :
    sensorFieldsOf parts =
      { temperature_internal := (parts[1]?).bind parse_temperature
        temperature_external := (parts[2]?).bind parse_temperature
        humidity_internal := (parts[3]?).bind parse_humidity
        co2 := (parts[4]?).bind parse_int
        voc := (parts[11]?).bind parse_int } := by
  unfold sensorFieldsOf
  rcases h1 : parts[1]? with _ | v1 <;>
    rcases h2 : parts[2]? with _ | v2 <;>
      rcases h3 : parts[3]? with _ | v3 <;>
        rcases h4 : parts[4]? with _ | v4 <;>
          rcases h11 : parts[11]? with _ | v11 <;>
            simp [Option.bind]

/-- A guard-passing response cannot be empty, so `get_sensors` on it is
`sensorFieldsOf` of the split. -/
theorem get_sensors_guard {r : String}
    (h : (strStartsWith r "VMIO" || strContainsChar r ',') = true) :
    get_sensors (some r) = sensorFieldsOf (strSplitOn r ',') := by
  have hne : strIsEmpty r = false := by
    cases r with
    | mk data =>
        cases data with
        | nil => simp [strStartsWith, listStartsWith, strContainsChar] at h
        | cons c cs => rfl
  simp [get_sensors, hne, h]

/-- C4: `get_sensors` decodes exactly the responses with the `"VMIO"`
marker or a comma, mapping field 1 to internal temperature, 2 to external
temperature, 3 to internal humidity, 4 to CO2 and 11 to VOC, with any
out-of-bound index left absent; every other response leaves all fields
absent. -/
theorem C4_sensor_decoding :
    ∀ r : String, get_sensors (some r) = sensorsRuleSpec r := by
  intro r
  cases hg : (strStartsWith r "VMIO" || strContainsChar r ',') with
  | false =>
      have hr : get_sensors (some r) = {} := by
        cases he : strIsEmpty r with
        | true => simp [get_sensors, he]
        | false => simp [get_sensors, he, hg]
      rw [hr, sensorsRuleSpec, if_neg]
      simp [hg]
  | true =>
      rw [get_sensors_guard hg, sensorFieldsOf_eq, sensorsRuleSpec, if_pos]
      simp [hg]

/-- C7: a `"VMGO"` response whose speed field does not parse as an integer
keeps speed 0, mode off and `is_online` false, while the sensors and LED
fields are still decoded when present. -/
theorem C7_speed_parse_failure :
    ∀ r p, strStartsWith r "VMGO" = true →
      (strSplitOn r ',')[1]? = some p →
      pyInt p = none →
      (get_status (some r)).speed = 0 ∧
      (get_status (some r)).speed_mode = "off" ∧
      (get_status (some r)).is_online = false ∧
      (get_status (some r)).sensors_on =
        ((strSplitOn r ',')[4]?).map (fun v => v == "00000" || v == "00001") ∧
      (get_status (some r)).led_on =
        ((strSplitOn r ',')[14]?).map (fun v => v != "00000") ∧
      (get_status (some r)).led_filter_warning =
        (((strSplitOn r ',')[14]?).map (fun v => v == "00032")).getD false := by
  intro r p hs h1 hp
  rw [get_status_vmgo hs, statusOf_eq, h1]
  simp [Option.bind, hp]

/-- C7 witness at a concrete frame with a non-numeric speed field. -/
theorem C7_speed_parse_failure_witness :
    (get_status (some "VMGO,abcde,00000,00000,00001")).speed = 0 ∧
    (get_status (some "VMGO,abcde,00000,00000,00001")).speed_mode = "off" ∧
    (get_status (some "VMGO,abcde,00000,00000,00001")).is_online = false ∧
    (get_status (some "VMGO,abcde,00000,00000,00001")).sensors_on =
      ((strSplitOn "VMGO,abcde,00000,00000,00001" ',')[4]?).map
        (fun v => v == "00000" || v == "00001") ∧
    (get_status (some "VMGO,abcde,00000,00000,00001")).led_on =
      ((strSplitOn "VMGO,abcde,00000,00000,00001" ',')[14]?).map
        (fun v => v != "00000") ∧
    (get_status (some "VMGO,abcde,00000,00000,00001")).led_filter_warning =
      (((strSplitOn "VMGO,abcde,00000,00000,00001" ',')[14]?).map
        (fun v => v == "00032")).getD false :=
  C7_speed_parse_failure _ "abcde" (by decide) (by decide) (by decide)

/-- C8: the decoders are total functions of the response (they are defined
for every string, so no exception can escape), and every decoded field is a
function of its own raw field alone: two decoded responses agreeing on one
raw field agree on the field decoded from it, however corrupted their other
fields are. -/
theorem C8_field_independence :
    (∀ r₁ r₂ : String,
        (strStartsWith r₁ "VMIO" || strContainsChar r₁ ',') = true →
        (strStartsWith r₂ "VMIO" || strContainsChar r₂ ',') = true →
        ((strSplitOn r₁ ',')[1]? = (strSplitOn r₂ ',')[1]? →
            (get_sensors (some r₁)).temperature_internal =
              (get_sensors (some r₂)).temperature_internal) ∧
        ((strSplitOn r₁ ',')[2]? = (strSplitOn r₂ ',')[2]? →
            (get_sensors (some r₁)).temperature_external =
              (get_sensors (some r₂)).temperature_external) ∧
        ((strSplitOn r₁ ',')[3]? = (strSplitOn r₂ ',')[3]? →
            (get_sensors (some r₁)).humidity_internal =
              (get_sensors (some r₂)).humidity_internal) ∧
        ((strSplitOn r₁ ',')[4]? = (strSplitOn r₂ ',')[4]? →
            (get_sensors (some r₁)).co2 = (get_sensors (some r₂)).co2) ∧
        ((strSplitOn r₁ ',')[11]? = (strSplitOn r₂ ',')[11]? →
            (get_sensors (some r₁)).voc = (get_sensors (some r₂)).voc)) ∧
    (∀ r₁ r₂ : String,
        strStartsWith r₁ "VMGO" = true →
        strStartsWith r₂ "VMGO" = true →
        ((strSplitOn r₁ ',')[1]? = (strSplitOn r₂ ',')[1]? →
            (get_status (some r₁)).speed = (get_status (some r₂)).speed ∧
            (get_status (some r₁)).speed_mode = (get_status (some r₂)).speed_mode ∧
            (get_status (some r₁)).is_online = (get_status (some r₂)).is_online) ∧
        ((strSplitOn r₁ ',')[4]? = (strSplitOn r₂ ',')[4]? →
            (get_status (some r₁)).sensors_on = (get_status (some r₂)).sensors_on) ∧
        ((strSplitOn r₁ ',')[14]? = (strSplitOn r₂ ',')[14]? →
            (get_status (some r₁)).led_on = (get_status (some r₂)).led_on ∧
            (get_status (some r₁)).led_filter_warning =
              (get_status (some r₂)).led_filter_warning)) := by
  constructor
  · intro r₁ r₂ h₁ h₂
    rw [get_sensors_guard h₁, get_sensors_guard h₂, sensorFieldsOf_eq, sensorFieldsOf_eq]
    exact ⟨fun h => by rw [h], fun h => by rw [h], fun h => by rw [h],
      fun h => by rw [h], fun h => by rw [h]⟩
  · intro r₁ r₂ h₁ h₂
    rw [get_status_vmgo h₁, get_status_vmgo h₂, statusOf_eq, statusOf_eq]
    exact ⟨fun h => by rw [h]; exact ⟨rfl, rfl, rfl⟩,
      fun h => by rw [h],
      fun h => by rw [h]; exact ⟨rfl, rfl⟩⟩

/-- C8 witness: corrupting sibling fields changes neither a sensor field
nor a status field decoded from an unchanged raw field. -/
theorem C8_field_independence_witness :
    ((get_sensors (some "VMIO,00215,XXXXX,YYYY")).temperature_internal =
      (get_sensors (some "VMIO,00215,00230,0500")).temperature_internal) ∧
    ((get_status (some "VMGO,not-a-number,Z,Z,00001")).sensors_on =
      (get_status (some "VMGO,00003,A,B,00001")).sensors_on) :=
  ⟨(C8_field_independence.1 "VMIO,00215,XXXXX,YYYY" "VMIO,00215,00230,0500"
      (by decide) (by decide)).1 (by decide),
    ((C8_field_independence.2 "VMGO,not-a-number,Z,Z,00001" "VMGO,00003,A,B,00001"
      (by decide) (by decide)).2.1 (by decide))⟩

/-- C10: for every response, a raised LED filter warning comes with the
LED reported on, and an LED reported off comes with no filter warning,
because both fields are decoded together from the same raw field whose
warning code differs from the off code. -/
theorem C10_led_filter_implies_led_on :
    ∀ response : Option String,
      ((get_status response).led_filter_warning = true →
        (get_status response).led_on = some true) ∧
      ((get_status response).led_on = some false →
        (get_status response).led_filter_warning = false) := by
  intro response
  cases response with
  | none => exact ⟨fun h => absurd h (by decide), fun h => rfl⟩
  | some r =>
      cases hs : strStartsWith r "VMGO" with
      | false =>
          have hr : get_status (some r) = { is_online := true } := by
            simp [get_status, hs]
          rw [hr]
          exact ⟨fun h => absurd h (by decide), fun h => rfl⟩
      | true =>
          rw [get_status_vmgo hs, statusOf_eq]
          cases h14 : (strSplitOn r ',')[14]? with
          | none =>
              exact ⟨fun h => by simp at h, fun h => by simp at h⟩
          | some c =>
              simp only [Option.map_some, Option.getD_some]
              constructor
              · intro h
                have hc : c = "00032" := by simpa using h
                subst hc
                rfl
              · intro h
                have hb : (c != "00000") = false := Option.some.inj h
                have hc : c = "00000" := by simpa using hb
                subst hc
                rfl

/-- C10 witness at concrete frames with LED codes 00032 and 00000. -/
theorem C10_led_filter_implies_led_on_witness :
    (get_status (some "VMGO,00001,2,3,4,5,6,7,8,9,10,11,12,13,00032")).led_on = some true ∧
    (get_status (some "VMGO,00001,2,3,4,5,6,7,8,9,10,11,12,13,00000")).led_filter_warning = false :=
  ⟨(C10_led_filter_implies_led_on
      (some "VMGO,00001,2,3,4,5,6,7,8,9,10,11,12,13,00032")).1 (by decide),
    (C10_led_filter_implies_led_on
      (some "VMGO,00001,2,3,4,5,6,7,8,9,10,11,12,13,00000")).2 (by decide)⟩

end HeltyVMC
